import Mathlib

/-
  Verification of the orchard_aws load-orchestration and statement-generation
  pipeline (redshift.py, s3.py, sql_generator.py, string_utils.py) against its
  natural-language specification.

  The embedding follows the Python source file by file.  Pure string-building
  functions of sql_generator.py become Lean functions on String.  The stateful
  components (the s3 client, the Redshift connection and the load pipeline)
  become explicit state-passing functions: a computation of type `M α` maps a
  `PyState` to a new `PyState` together with `Except PyError α`, mirroring
  Python's exception propagation.  The warehouse itself (an external
  collaborator: it receives statement strings and acts on tables) is modelled
  by semantic table operations, one per statement template of sql_generator.
-/

namespace OrchardAws

/-- Python runtime errors that the embedded code can raise.  `nameError n`
models a `NameError` for the undefined name `n`; `typeError m` a `TypeError`
with message `m`; `exception m` a plain `Exception(m)`; `executionError` any
error raised by the database driver while executing a statement;
`interfaceError` the psycopg2 error for using a closed connection;
`connectionError` a failure to establish a connection. -/
inductive PyError where
  | nameError (n : String)
  | typeError (msg : String)
  | exception (msg : String)
  | executionError
  | interfaceError
  | connectionError
  deriving DecidableEq, Repr

deriving instance DecidableEq for Except

/-! ### Small string helpers mirroring Python primitives -/

/-- Python's `s[:-1]`: drop the final character of a string. -/
def pyDropLast (s : String) : String := String.mk s.data.dropLast

/-- Python's `sep.join(parts)`. -/
def pyJoin (sep : String) : List String → String
  | [] => ""
  | [x] => x
  | x :: y :: t => x ++ sep ++ pyJoin sep (y :: t)

/-- Python's `"".join` flavour used when clauses are accumulated by `+=`:
concatenate a list of strings. -/
def strConcat : List String → String := List.foldr (· ++ ·) ""

/-- Python's `schema_and_table.split('.')`, keeping the first two fields
(the source always indexes `[0]` and `[1]`): the characters before the first
dot and those between the first and the second dot. -/
def pySplitDot (s : String) : String × String :=
  let fst := s.data.takeWhile (fun c => c != '.')
  let rest := (s.data.dropWhile (fun c => c != '.')).drop 1
  (String.mk fst, String.mk (rest.takeWhile (fun c => c != '.')))

/-- Whether `needle` occurs as a prefix of `hay` (on character lists). -/
def chPre : List Char → List Char → Bool
  | [], _ => true
  | _ :: _, [] => false
  | a :: as, b :: bs => a == b && chPre as bs

/-- Whether `needle` occurs as a contiguous substring of `hay`
(on character lists). -/
def chSub (needle : List Char) : List Char → Bool
  | [] => needle.isEmpty
  | c :: t => chPre needle (c :: t) || chSub needle t

theorem strExt {a b : String} (h : a.data = b.data) : a = b := by
  cases a; cases b; cases h; rfl

theorem strAppend_assoc (a b c : String) : a ++ b ++ c = a ++ (b ++ c) := by
  apply strExt
  simp [String.data_append, List.append_assoc]

theorem strAppend_empty (a : String) : a ++ "" = a := by
  apply strExt
  simp [String.data_append]

/-! ### Data model

A pandas `DataFrame` enters the pipeline only through (a) its column schema
(`df.dtypes`: column name and dtype rendered as a string, in column order) and
(b) its rows, which travel to the warehouse through the staged CSV object.
Rows are modelled as association lists from column name to a string value
(CSV cells); serialization to and from CSV is modelled as the identity. -/

abbrev Row := List (String × String)

structure DataFrame where
  /-- Column schema in original order: (name, pandas dtype as string). -/
  cols : List (String × String)
  rows : List Row
  deriving DecidableEq, Repr

/-- A TypeMap: the `pandas_redshift_datatypes` configuration mapping a pandas
dtype string to a Redshift column type.  Modelled from the spec: the YAML file
read by `config.get` is not part of the repository source; the spec describes
it as "a mapping from sourceType → warehouse column type string, supplied once
at startup", so it is carried as an explicit association list. -/
abbrev TypeMap := List (String × String)

/-! ### string_utils.py -/

/-- `string_utils.list_to_string`: join a list on a delimiter, `''` when
empty. -/
def list_to_string (string_list : List String) (delimiter : String) : String :=
  if string_list.length == 0 then "" else pyJoin delimiter string_list

/-! ### sql_generator.py — statement builders -/

/-- The single equality clause the loop body of
`get_delete_from_dest_using_source_query` appends for one primary key:
`and {source}."{key}" = {dest}."{key}" `. -/
def keyClause (source dest key : String) : String :=
  "and " ++ source ++ ".\"" ++ key ++ "\" = " ++ dest ++ ".\"" ++ key ++ "\" "

/-- `sql_generator.get_delete_from_dest_using_source_query` (lines 41-70):
starting from `where 1=1 `, the loop appends one equality clause per primary
key, then the delete-using statement is assembled around the where-clause. -/
def whereClauseLoop (source dest : String) (primary_keys : List String) : String :=
  primary_keys.foldl (fun acc key => acc ++ keyClause source dest key) "where 1=1 "

def get_delete_from_dest_using_source_query (source dest : String)
    (primary_keys : List String) : String :=
  "delete from " ++ dest ++ " using " ++ source ++ "\n        "
    ++ whereClauseLoop source dest primary_keys

/-- `sql_generator.get_insert_from_source_into_dest_query` (lines 73-77). -/
def get_insert_from_source_into_dest_query (source dest : String) : String :=
  "insert into " ++ dest ++ "\n        select * from " ++ source

/-- `sql_generator.get_create_schema_query` (lines 80-81). -/
def get_create_schema_query (schema : String) : String :=
  "CREATE SCHEMA IF NOT EXISTS " ++ schema

/-- `sql_generator.get_drop_table_query` (lines 84-87). -/
def get_drop_table_query (schema_and_table : String) : String :=
  "DROP TABLE IF EXISTS " ++ schema_and_table

/-- `sql_generator.get_create_temp_staging_table_query` (lines 90-94). -/
def get_create_temp_staging_table_query (temp_table schema_and_table : String) : String :=
  "CREATE TEMP TABLE " ++ temp_table ++ " (LIKE " ++ schema_and_table
    ++ " INCLUDING DEFAULTS)"

/-! ### sql_generator.py — DDL derivation from a DataFrame -/

/-- `sql_generator.get_pandas_datatype_frame` (lines 97-108): one row per
column, columns `index` (the column name) and `pandas_type`. -/
def get_pandas_datatype_frame (df : DataFrame) : List (String × String) :=
  df.cols

/-- `sql_generator.add_redshift_type_column` (lines 111-114):
`df['pandas_type'].astype(str).map(type_map)`.  A pandas `Series.map` over a
dict yields `NaN` for a key absent from the dict — modelled as `none`; no
error is raised at this point. -/
def add_redshift_type_column (frame : List (String × String)) (type_map : TypeMap) :
    List (String × Option String) :=
  frame.map (fun c => (c.1, List.lookup c.2 type_map))

/-- `sql_generator.add_column_ddl` (lines 117-120):
`'"' + index + '" ' + redshift_type + ","`.  In pandas, string concatenation
with a `NaN` entry propagates the `NaN`, hence `Option.map`. -/
def add_column_ddl (typed : List (String × Option String)) : List (Option String) :=
  typed.map (fun c => c.2.map (fun r => "\"" ++ c.1 ++ "\" " ++ r ++ ","))

/-- Index of the first `none` in a list of optional strings, if any. -/
def firstNoneIdx : List (Option String) → Option Nat
  | [] => none
  | none :: _ => some 0
  | some _ :: rest => (firstNoneIdx rest).map (· + 1)

/-- `sql_generator.get_ddl_string` (lines 123-131): `' '.join(df.column_ddl)[:-1]`.
`str.join` raises `TypeError("sequence item i: expected str instance, float
found")` at the first `NaN` (a float) in the column, so an unmapped type
surfaces here as a generic `TypeError`, not as a dedicated error naming the
column. -/
def get_ddl_string (column_ddl : List (Option String)) : Except PyError String :=
  match firstNoneIdx column_ddl with
  | some i =>
      .error (.typeError ("sequence item " ++ toString i
        ++ ": expected str instance, float found"))
  | none => .ok (pyDropLast (pyJoin " " (column_ddl.map (fun o => o.getD ""))))

/-- `sql_generator.get_table_config_string` (lines 134-144).  Both `diststyle`
and `sortkey` are compared against `None` (`Option`): any non-`None` value —
including the empty string — produces its clause. -/
def get_table_config_string (diststyle sortkey : Option String) : String :=
  (match diststyle with
   | none => ""
   | some d => "diststyle " ++ d ++ " ")
  ++ (match sortkey with
      | none => ""
      | some k => "sortkey(" ++ k ++ ")")

/-- `sql_generator.get_ddl_base_string` (lines 147-152) together with the `%`
substitution performed at lines 179-180 of `create_table_ddl_from_df`. -/
def ddl_base_subst (add_updated_column : Bool) (name ddl config : String) : String :=
  if add_updated_column then
    "CREATE TABLE IF NOT EXISTS " ++ name ++ " (" ++ ddl
      ++ ", \"__updated_at\" TIMESTAMP DEFAULT SYSDATE) " ++ config
  else
    "CREATE TABLE IF NOT EXISTS " ++ name ++ " (" ++ ddl ++ ") " ++ config

/-- `sql_generator.create_table_ddl_from_df` (lines 155-182).  The TypeMap is
an explicit argument standing for `config.get('pandas_redshift_datatypes')`
(externally supplied configuration; see `TypeMap`). -/
def create_table_ddl_from_df (schema_and_table : String) (df : DataFrame)
    (add_updated_column : Bool) (diststyle sortkey : Option String)
    (type_map : TypeMap) : Except PyError String := do
  let frame := get_pandas_datatype_frame df
  let typed := add_redshift_type_column frame type_map
  let column_ddl := add_column_ddl typed
  let ddl ← get_ddl_string column_ddl
  pure (ddl_base_subst add_updated_column schema_and_table ddl
    (get_table_config_string diststyle sortkey))

/-- Default of the `sortkey` parameter of `Redshift.df_to_redshift`
(redshift.py line 126): the empty string, not `None`. -/
def dfToRedshiftDefaultSortkey : Option String := some ""

/-- Default of the `diststyle` parameter of `Redshift.s3_to_redshift`
(redshift.py line 202). -/
def s3ToRedshiftDefaultDiststyle : Option String := some "auto"

/-- Default of the `load_type` parameter of `Redshift.s3_to_redshift`
(redshift.py line 199). -/
def s3ToRedshiftDefaultLoadType : String := "full-refresh"

/-! ### Spec-side parser for the delete-statement round trip (claim C9) -/

/-- Scanner for double-quoted segments of a character stream: outside quotes
(`none` mode) characters are skipped until a `"` opens a segment; inside
quotes (`some acc` mode) characters accumulate until the closing `"` emits
the segment.  Modelled from the spec: the spec's round-trip property speaks of
"parsing the key list back out of the statement"; no parser exists in the
source, so this extraction is the spec-side definition to compare against the
rendering. -/
def quoteScan : List Char → Option (List Char) → List String
  | [], _ => []
  | c :: cs, none => if c = '"' then quoteScan cs (some []) else quoteScan cs none
  | c :: cs, some acc =>
      if c = '"' then String.mk acc :: quoteScan cs none
      else quoteScan cs (some (acc ++ [c]))

/-- Elements at even positions (0, 2, 4, …) of a list. -/
def everyOther {α : Type} : List α → List α
  | [] => []
  | [a] => [a]
  | a :: _ :: t => a :: everyOther t

/-- Each element twice, in order: the shape of the quoted segments of a
delete-using statement (every key appears once per table alias). -/
def dupEach {α : Type} : List α → List α
  | [] => []
  | a :: t => a :: a :: dupEach t

/-- Modelled from the spec: recover the primary-key list from a rendered
delete-using statement.  Each key appears exactly twice in consecutive
double-quoted positions (once per table alias), so the keys are the
even-indexed quoted segments. -/
def parseDeleteKeys (stmt : String) : List String :=
  everyOther (quoteScan stmt.data none)

/-! ### redshift.py — Warehouse Connection (lines 45-121)

The connection-level model: psycopg2 is the external collaborator, represented
by an oracle `db : String → Except PyError β` giving the outcome of
`cur.execute(query)` (and, for fetching calls, the rows and column names
returned).  `ConnSt` records whether the connection is open and which
statements were handed to a cursor, in order. -/

structure ConnSt where
  connOpen : Bool
  /-- Statements passed to `cur.execute`, oldest first. -/
  executed : List String
  deriving DecidableEq, Repr

/-- Result of `Redshift.execute_and_fetch`: a DataFrame
(`return_dataframe=True`) or a list of records (`return_json=True`), each
carrying the cursor's column names and fetched rows. -/
inductive FetchResult where
  | frame (columns : List String) (rows : List (List String))
  | records (columns : List String) (rows : List (List String))
  deriving DecidableEq, Repr

/-- `Redshift.execute_and_fetch` (redshift.py lines 77-104).  Control flow of
the source: open a cursor (fails on a closed connection), execute the query,
fetch all rows, close the cursor, and only then test
`return_dataframe == return_json`, raising
`Exception('return_dataframe and return_json are mutually exclusive.')` when
the flags coincide.  The `except` block closes the connection and re-raises,
so every failure — including the mutual-exclusivity error, which is raised
after the statement already ran — leaves the connection closed. -/
def execute_and_fetch (db : String → Except PyError (List (List String) × List String))
    (query : String) (return_dataframe return_json : Bool) (s : ConnSt) :
    ConnSt × Except PyError FetchResult :=
  if s.connOpen = false then (s, .error .interfaceError)
  else
    let s1 : ConnSt := { s with executed := s.executed ++ [query] }
    match db query with
    | .error e => ({ s1 with connOpen := false }, .error e)
    | .ok (rows, columns) =>
        if return_dataframe == return_json then
          ({ s1 with connOpen := false },
           .error (.exception "return_dataframe and return_json are mutually exclusive."))
        else if return_dataframe then (s1, .ok (.frame columns rows))
        else (s1, .ok (.records columns rows))

/-- `Redshift.execute` (redshift.py lines 106-121): open a cursor, execute,
commit.  On any exception the connection is closed and the error re-raised;
on a closed connection the cursor call fails without sending anything. -/
def execute (db : String → Except PyError Unit) (query : String) (s : ConnSt) :
    ConnSt × Except PyError Unit :=
  if s.connOpen = false then (s, .error .interfaceError)
  else
    let s1 : ConnSt := { s with executed := s.executed ++ [query] }
    match db query with
    | .error e => ({ s1 with connOpen := false }, .error e)
    | .ok _ => (s1, .ok ())

/-- Trace of `Redshift.__init__` (redshift.py lines 45-61): which connect
attempts were made, the sleeps performed between them, and the overall
outcome. -/
structure InitTrace where
  result : Except PyError Unit
  attemptsMade : Nat
  sleeps : List Nat
  deriving Repr

/-- `Redshift.__init__` connection logic (redshift.py lines 51-57): try
`connect()`; on any exception sleep 5 seconds and call `connect()` once more,
this second call being outside any handler so its failure propagates.
`attempt n` is the outcome of the (n+1)-th `psycopg2.connect` call. -/
def redshiftInit (attempt : Nat → Except PyError Unit) : InitTrace :=
  match attempt 0 with
  | .ok _ => ⟨.ok (), 1, []⟩
  | .error _ =>
      match attempt 1 with
      | .ok _ => ⟨.ok (), 2, [5]⟩
      | .error e => ⟨.error e, 2, [5]⟩

/-! ### The load pipeline (s3.py and redshift.py lines 123-317)

State of a run: the s3 store (key ↦ staged payload, serialization modelled as
the identity), the warehouse tables (name ↦ rows), the externally supplied
TypeMap, the connection flag, and a counter of statements sent to the
warehouse together with the set of statement indices at which the warehouse
(an external collaborator) fails.  A computation `M α` threads this state and
an `Except PyError α` outcome, modelling Python exception propagation. -/

abbrev Tables := List (String × List Row)

structure PyState where
  store : List (String × DataFrame)
  tables : Tables
  typeMap : TypeMap
  connOpen : Bool
  /-- Number of statements sent to the warehouse so far. -/
  execCount : Nat
  /-- Statement indices at which the warehouse raises (external failures). -/
  failSet : List Nat
  /-- The token `uuid.uuid4()` yields in this run. -/
  uuidTok : String
  deriving DecidableEq, Repr

abbrev M (α : Type) := PyState → PyState × Except PyError α

def mOk {α : Type} (a : α) : M α := fun s => (s, .ok a)

def mRaise {α : Type} (e : PyError) : M α := fun s => (s, .error e)

def mGet : M PyState := fun s => (s, .ok s)

/-- Sequencing with Python exception semantics: an exception aborts the rest
of the method body, carrying the state at the raise point. -/
def mBind {α β : Type} (m : M α) (f : α → M β) : M β := fun s =>
  match m s with
  | (s', .ok a) => f a s'
  | (s', .error e) => (s', .error e)

/-- `self.execute(<statement>)` from the pipeline: sending one statement to
the warehouse.  `op` is the semantic effect of the statement on the tables
(the warehouse is the external collaborator executing the SQL text).  A closed
connection fails before anything is sent; a warehouse failure (or a statement
error such as a missing table) closes the connection and re-raises, per
`Redshift.execute`. -/
def runStmt (op : Tables → Except PyError Tables) : M Unit := fun s =>
  if s.connOpen = false then (s, .error .interfaceError)
  else
    let s1 := { s with execCount := s.execCount + 1 }
    if s.failSet.contains s.execCount then
      ({ s1 with connOpen := false }, .error .executionError)
    else
      match op s.tables with
      | .ok t => ({ s1 with tables := t }, .ok ())
      | .error e => ({ s1 with connOpen := false }, .error e)

/-- A fetching statement (`execute_and_fetch` from the pipeline): sends one
statement, changes no table, returns a value read off the state. -/
def runFetch {α : Type} (val : PyState → α) : M α := fun s =>
  if s.connOpen = false then (s, .error .interfaceError)
  else
    let s1 := { s with execCount := s.execCount + 1 }
    if s.failSet.contains s.execCount then
      ({ s1 with connOpen := false }, .error .executionError)
    else (s1, .ok (val s1))

/-! Semantic table operations, one per statement template of sql_generator. -/

/-- `DROP TABLE IF EXISTS name`: remove the table when present. -/
def dropTableSem (name : String) (t : Tables) : Except PyError Tables :=
  .ok (t.filter (fun p => p.1 != name))

/-- `CREATE SCHEMA IF NOT EXISTS schema`: no effect on tables. -/
def createSchemaSem (t : Tables) : Except PyError Tables := .ok t

/-- `CREATE TABLE IF NOT EXISTS name (...)`: create empty when absent. -/
def createTableIfAbsentSem (name : String) (t : Tables) : Except PyError Tables :=
  .ok (if (List.lookup name t).isSome then t else t ++ [(name, [])])

/-- `CREATE TEMP TABLE temp (LIKE dest INCLUDING DEFAULTS)`: requires the
destination to exist; creates an empty clone. -/
def createTempLikeSem (temp dest : String) (t : Tables) : Except PyError Tables :=
  match List.lookup dest t with
  | none => .error .executionError
  | some _ => .ok (t ++ [(temp, [])])

/-- Replace the rows of table `name`. -/
def setTable (name : String) (rows : List Row) (t : Tables) : Tables :=
  t.map (fun p => if p.1 == name then (p.1, rows) else p)

/-- `copy table from 's3://...'`: append the staged rows to the table. -/
def copySem (name : String) (rows : List Row) (t : Tables) : Except PyError Tables :=
  match List.lookup name t with
  | none => .error .executionError
  | some existing => .ok (setTable name (existing ++ rows) t)

/-- The key tuple of a row for an ordered list of primary-key columns. -/
def keyTuple (primary_keys : List String) (r : Row) : List (Option String) :=
  primary_keys.map (fun k => List.lookup k r)

/-- `delete from dest using source where 1=1 and source."k" = dest."k" ...`:
remove destination rows whose key tuple occurs in the source table. -/
def deleteMatchingSem (source dest : String) (primary_keys : List String)
    (t : Tables) : Except PyError Tables :=
  match List.lookup source t, List.lookup dest t with
  | some srcRows, some destRows =>
      .ok (setTable dest
        (destRows.filter (fun r =>
          !(srcRows.any (fun q => keyTuple primary_keys q == keyTuple primary_keys r))))
        t)
  | _, _ => .error .executionError

/-- `insert into dest select * from source`: append all source rows. -/
def insertAllSem (source dest : String) (t : Tables) : Except PyError Tables :=
  match List.lookup source t, List.lookup dest t with
  | some srcRows, some destRows => .ok (setTable dest (destRows ++ srcRows) t)
  | _, _ => .error .executionError

/-! s3.py — the Object Store Gateway -/

/-- `s3.csv_to_s3` (s3.py lines 40-57): resolve the key from subdirectory and
object name and put the payload at that key. -/
def csv_to_s3 (payload : DataFrame) (obj_name : String) (subdirectory : Option String) :
    M String := fun s =>
  let key := (match subdirectory with
              | none => ""
              | some d => d ++ "/") ++ obj_name
  ({ s with store := s.store ++ [(key, payload)] }, .ok key)

/-- `s3.df_to_s3` (s3.py lines 24-38).  Line 31 reads
`data = df.to_csv(index=False, encoding=encosding)`: the name `encosding` is
bound nowhere in the module, so evaluating the argument raises
`NameError('encosding')` before `to_csv` runs and before the `try` block that
would call `csv_to_s3`/`put_object` is entered.  Every call therefore fails
with this error and touches neither the store nor the warehouse. -/
def df_to_s3 (df : DataFrame) (obj_name : String) (bucket : Option String)
    (subdirectory : Option String) (gz : Bool) (encoding : String) : M String :=
  fun s => (s, .error (.nameError "encosding"))

/-- `s3.s3_to_df` (s3.py lines 59-75): fetch the object (a missing key raises
from the client) and read it back as a DataFrame. -/
def s3_to_df (key : String) (bucket : Option String) : M DataFrame := fun s =>
  match List.lookup key s.store with
  | some df => (s, .ok df)
  | none => (s, .error (.exception "NoSuchKey"))

/-- `s3.delete_file` (s3.py lines 104-108): delete the object at `key`. -/
def delete_file (key : String) : M Unit := fun s =>
  ({ s with store := s.store.filter (fun p => p.1 != key) }, .ok ())

/-! redshift.py — the Load Orchestrator -/

/-- `Redshift.check_table_exists` (redshift.py lines 290-300): run the
existence query through `execute_and_fetch` and test `count > 0`. -/
def check_table_exists (schema_and_table : String) : M Bool :=
  runFetch (fun s => (List.lookup schema_and_table s.tables).isSome)

/-- `Redshift.create_table_from_df` (redshift.py lines 302-317): build the
create-schema statement and the create-table DDL — the DDL derivation happens
here and can raise — and only afterwards execute first the schema statement,
then the DDL. -/
def create_table_from_df (schema_and_table : String) (df : DataFrame)
    (diststyle sortkey : Option String) (add_updated_column : Bool) : M Unit :=
  fun s =>
    match create_table_ddl_from_df schema_and_table df add_updated_column
        diststyle sortkey s.typeMap with
    | .error e => (s, .error e)
    | .ok _ =>
        (mBind (runStmt createSchemaSem)
          (fun _ => runStmt (createTableIfAbsentSem schema_and_table))) s

/-- `Redshift.create_temp_staging_table` (redshift.py lines 268-288): derive
`<table>__tmp`, drop it if it exists, create it as a clone of the
destination, and return its name. -/
def create_temp_staging_table (schema_and_table : String) : M String :=
  let temp_table := (pySplitDot schema_and_table).2 ++ "__tmp"
  mBind (runStmt (dropTableSem temp_table))
    (fun _ => mBind (runStmt (createTempLikeSem temp_table schema_and_table))
      (fun _ => mOk temp_table))

/-- `Redshift.copy_from_s3` (redshift.py lines 255-266): send the copy
statement; the warehouse pulls the staged object's rows into the table. -/
def copy_from_s3 (schema_and_table : String) (key : String) : M Unit :=
  mBind mGet (fun s =>
    match List.lookup key s.store with
    | none => runStmt (fun _ => .error .executionError)
    | some df => runStmt (copySem schema_and_table df.rows))

/-- `Redshift.upsert` (redshift.py lines 238-253): when primary keys are
given, delete matching destination rows, then insert everything from the
source table. -/
def upsert (source dest : String) (primary_keys : List String) : M Unit :=
  mBind (if primary_keys.isEmpty then mOk ()
         else runStmt (deleteMatchingSem source dest primary_keys))
    (fun _ => runStmt (insertAllSem source dest))

/-- `Redshift.upsert_from_s3` (redshift.py lines 218-236): temp staging table,
copy from s3 into it, upsert into the destination, drop the temp table. -/
def upsert_from_s3 (schema_and_table key : String) (bucket : Option String)
    (primary_keys : List String) : M Unit :=
  mBind (create_temp_staging_table schema_and_table)
    (fun temp_table =>
      mBind (copy_from_s3 temp_table key)
        (fun _ => mBind (upsert temp_table schema_and_table primary_keys)
          (fun _ => runStmt (dropTableSem temp_table))))

/-- `Redshift.s3_to_redshift` (redshift.py lines 194-216): drop the
destination when `load_type == 'full-refresh'`, read the staged object back
for schema inspection, create the destination if absent, then upsert. -/
def s3_to_redshift (key schema_and_table : String) (sortkey : Option String)
    (columns : Option (List String)) (load_type : String)
    (primary_keys : List String) (bucket : Option String)
    (diststyle : Option String) (encoding : String) : M Unit :=
  mBind (if load_type == "full-refresh"
         then runStmt (dropTableSem schema_and_table) else mOk ())
    (fun _ => mBind (s3_to_df key bucket)
      (fun df => mBind (check_table_exists schema_and_table)
        (fun tableExists =>
          mBind (if tableExists then mOk ()
                 else create_table_from_df schema_and_table df diststyle sortkey false)
            (fun _ => upsert_from_s3 schema_and_table key bucket primary_keys))))

/-- The tail of `Redshift.df_to_redshift` after the staged object exists
(redshift.py lines 183-192): call `s3_to_redshift` — passing `key`,
`schema_and_table`, `sortkey`, `columns`, `primary_keys` and `encoding` but
NOT `load_type`, which therefore takes its default `'full-refresh'` — and
then, unless `keep_s3_backup`, delete the staged object.  The deletion is
straight-line code after the call, not a `finally` block: it runs only when
`s3_to_redshift` returns normally. -/
def df_to_redshift_from (key schema_and_table : String) (sortkey : Option String)
    (columns : Option (List String)) (primary_keys : List String)
    (encoding : String) (keep_s3_backup : Bool) : M Unit :=
  mBind (s3_to_redshift key schema_and_table sortkey columns
          s3ToRedshiftDefaultLoadType primary_keys none
          s3ToRedshiftDefaultDiststyle encoding)
    (fun _ => if keep_s3_backup then mOk () else delete_file key)

/-- `Redshift.df_to_redshift` (redshift.py lines 123-192): validate the spec
(incremental requires primary keys), derive the staged object name from the
table name and a unique token, stage the DataFrame via `df_to_s3`, and run
the tail. -/
def df_to_redshift (df : DataFrame) (schema_and_table : String)
    (sortkey : Option String) (columns : Option (List String))
    (load_type : String) (diststyle : Option String)
    (primary_keys : List String) (bucket : Option String)
    (subdirectory : String) (encoding : String) (keep_s3_backup : Bool) : M Unit :=
  if load_type == "incremental" && primary_keys.isEmpty then
    mRaise (.exception "Must pass primary keys for incremental loads.")
  else
    mBind mGet (fun st =>
      mBind (df_to_s3 df ((pySplitDot schema_and_table).2 ++ "-" ++ st.uuidTok ++ ".csv")
              bucket (some subdirectory) false encoding)
        (fun key => df_to_redshift_from key schema_and_table sortkey columns
          primary_keys encoding keep_s3_backup))

/-! ### Lemmas about the DDL column list (claims C4, C8, C10) -/

theorem pyDropLast_concatComma (s : String) : pyDropLast (s ++ ",") = s := by
  apply strExt
  show (String.mk ((s ++ ",").data.dropLast)).data = s.data
  rw [String.data_append]
  show ((s.data ++ [',']).dropLast) = s.data
  exact List.dropLast_concat ..

theorem pyDropLast_append (a b : String) (h : b.data ≠ []) :
    pyDropLast (a ++ b) = a ++ pyDropLast b := by
  apply strExt
  show ((a ++ b).data.dropLast) = (a ++ pyDropLast b).data
  rw [String.data_append, String.data_append]
  show (a.data ++ b.data).dropLast = a.data ++ b.data.dropLast
  exact List.dropLast_append_of_ne_nil a.data h

theorem pyJoin_comma_data_ne_nil (b : String) (l : List String) :
    (pyJoin " " ((b ++ ",") :: l)).data ≠ [] := by
  cases l with
  | nil =>
      show (b ++ ",").data ≠ []
      rw [String.data_append]
      simp
  | cons c t =>
      show ((b ++ ",") ++ " " ++ pyJoin " " (c :: t)).data ≠ []
      rw [String.data_append, String.data_append, String.data_append]
      simp

/-- The join-then-strip idiom of `get_ddl_string`: space-joining items that
each end in a comma and dropping the final character is the same as
comma-space-joining the bare items.  This is the bridge from the code's
rendering to the spec's "column-definition list". -/
theorem pyDropLast_pyJoin_comma (bs : List String) :
    pyDropLast (pyJoin " " (bs.map (· ++ ","))) = pyJoin ", " bs := by
  induction bs with
  | nil => rfl
  | cons b t ih =>
      cases t with
      | nil => exact pyDropLast_concatComma b
      | cons c r =>
          simp only [List.map_cons] at ih
          show pyDropLast ((b ++ ",") ++ " " ++ pyJoin " " ((c ++ ",") :: r.map (· ++ ",")))
            = b ++ ", " ++ pyJoin ", " (c :: r)
          rw [strAppend_assoc]
          rw [pyDropLast_append _ _ (by
            rw [String.data_append]
            intro hx
            rcases List.append_eq_nil.mp hx with ⟨-, h2⟩
            exact pyJoin_comma_data_ne_nil c (r.map (· ++ ",")) h2)]
          rw [pyDropLast_append _ _ (pyJoin_comma_data_ne_nil c (r.map (· ++ ",")))]
          rw [ih, ← strAppend_assoc]
          have hcs : (b ++ ",") ++ " " = b ++ ", " := by
            rw [strAppend_assoc]
            exact congrArg (b ++ ·) (by decide)
          rw [hcs]

theorem firstNoneIdx_map_some (l : List String) :
    firstNoneIdx (l.map some) = none := by
  induction l with
  | nil => rfl
  | cons a t ih => simp [firstNoneIdx, ih]

/-- When every column's pandas dtype is mapped (`ts` being the mapped
warehouse types, in order), `get_ddl_string` succeeds and yields the rendered
columns in the original order, comma-space separated. -/
theorem get_ddl_string_all_mapped (cols : List (String × String)) (tm : TypeMap)
    (ts : List String)
    (h : cols.map (fun c => List.lookup c.2 tm) = ts.map some) :
    get_ddl_string (add_column_ddl (add_redshift_type_column cols tm))
      = .ok (pyJoin ", "
          (List.zipWith (fun (c : String × String) (t : String) =>
            "\"" ++ c.1 ++ "\" " ++ t) cols ts)) := by
  have key : add_column_ddl (add_redshift_type_column cols tm)
      = (List.zipWith (fun (c : String × String) (t : String) =>
          "\"" ++ c.1 ++ "\" " ++ t) cols ts).map (fun b => some (b ++ ",")) := by
    induction cols generalizing ts with
    | nil =>
        cases ts with
        | nil => rfl
        | cons t ts' => simp at h
    | cons c cs ih =>
        cases ts with
        | nil => simp at h
        | cons t ts' =>
            simp only [List.map_cons, List.cons.injEq] at h
            obtain ⟨h1, h2⟩ := h
            simp only [add_redshift_type_column, add_column_ddl, List.map_cons,
              List.zipWith_cons_cons, h1, Option.map_some]
            exact congrArg (List.cons _)
              (by simpa [add_redshift_type_column, add_column_ddl] using ih ts' h2)
  rw [key]
  have hmap : ((List.zipWith (fun (c : String × String) (t : String) =>
        "\"" ++ c.1 ++ "\" " ++ t) cols ts).map (fun b => some (b ++ ","))).map
        (fun o => o.getD "")
      = (List.zipWith (fun (c : String × String) (t : String) =>
          "\"" ++ c.1 ++ "\" " ++ t) cols ts).map (· ++ ",") := by
    simp
  have hnone : firstNoneIdx ((List.zipWith (fun (c : String × String) (t : String) =>
      "\"" ++ c.1 ++ "\" " ++ t) cols ts).map (fun b => some (b ++ ","))) = none := by
    have : (List.zipWith (fun (c : String × String) (t : String) =>
        "\"" ++ c.1 ++ "\" " ++ t) cols ts).map (fun b => some (b ++ ","))
        = ((List.zipWith (fun (c : String × String) (t : String) =>
            "\"" ++ c.1 ++ "\" " ++ t) cols ts).map (· ++ ",")).map some := by
      simp
    rw [this]
    exact firstNoneIdx_map_some _
  simp only [get_ddl_string, hnone, hmap]
  rw [pyDropLast_pyJoin_comma]

/-- An unmapped dtype anywhere in the column list puts a `none` into the
column-ddl list, so `firstNoneIdx` finds an index. -/
theorem firstNoneIdx_of_unmapped (cols : List (String × String)) (tm : TypeMap)
    (h : ∃ c ∈ cols, List.lookup c.2 tm = none) :
    ∃ i, firstNoneIdx (add_column_ddl (add_redshift_type_column cols tm)) = some i := by
  induction cols with
  | nil => simp at h
  | cons c cs ih =>
      rcases h with ⟨x, hx, hlook⟩
      rcases List.mem_cons.mp hx with heq | hmem
      · subst heq
        refine ⟨0, ?_⟩
        simp [add_redshift_type_column, add_column_ddl, firstNoneIdx, hlook]
      · cases hc : List.lookup c.2 tm with
        | none =>
            refine ⟨0, ?_⟩
            simp [add_redshift_type_column, add_column_ddl, firstNoneIdx, hc]
        | some t =>
            obtain ⟨i, hi⟩ := ih ⟨x, hmem, hlook⟩
            refine ⟨i + 1, ?_⟩
            simp only [add_redshift_type_column, add_column_ddl, List.map_cons,
              hc, Option.map_some, firstNoneIdx]
            simp only [add_redshift_type_column, add_column_ddl] at hi
            rw [hi]
            rfl

/-! ### Claim theorems -/

/-- C7: connection establishment retries exactly once.  If the first connect
attempt fails, the component sleeps 5 time units and makes exactly one more
attempt; a second failure surfaces that failure to the caller; the behaviour
never depends on any attempt beyond the second, so no third attempt is ever
made. -/
theorem redshiftInit_retries_exactly_once (attempt : Nat → Except PyError Unit) :
    (∀ e0, attempt 0 = .error e0 →
        (redshiftInit attempt).sleeps = [5] ∧ (redshiftInit attempt).attemptsMade = 2) ∧
    (∀ e0 e1, attempt 0 = .error e0 → attempt 1 = .error e1 →
        redshiftInit attempt = ⟨.error e1, 2, [5]⟩) ∧
    (∀ g : Nat → Except PyError Unit, g 0 = attempt 0 → g 1 = attempt 1 →
        redshiftInit g = redshiftInit attempt) := by
  refine ⟨?_, ?_, ?_⟩
  · intro e0 h0
    unfold redshiftInit
    rw [h0]
    cases attempt 1 <;> simp
  · intro e0 e1 h0 h1
    unfold redshiftInit
    rw [h0, h1]
  · intro g hg0 hg1
    unfold redshiftInit
    rw [hg0, hg1]

theorem redshiftInit_retries_exactly_once_witness :
    redshiftInit (fun _ => .error .connectionError)
      = ⟨.error .connectionError, 2, [5]⟩ :=
  (redshiftInit_retries_exactly_once (fun _ => .error .connectionError)).2.1
    .connectionError .connectionError rfl rfl

/-- C5 (counterexample): with `return_dataframe = return_json = False` the
statement IS sent to the warehouse before the mutual-exclusivity error is
raised — the executed-statement trace is nonempty, refuting "raised before
the statement is sent to the warehouse connection". -/
theorem execute_and_fetch_sends_before_check :
    execute_and_fetch (fun _ => .ok ([], [])) "select 1" false false ⟨true, []⟩
      = (⟨false, ["select 1"]⟩,
         .error (.exception "return_dataframe and return_json are mutually exclusive.")) ∧
    (execute_and_fetch (fun _ => .ok ([], [])) "select 1" false false
      ⟨true, []⟩).1.executed ≠ [] := ⟨rfl, by decide⟩

/-- C5 (amended): for every call to `execute_and_fetch` in which neither or
both output formats are requested (`return_dataframe = return_json`) and the
query itself succeeds, the ambiguous-format error (a plain `Exception`, not a
dedicated `InvalidArgumentError`) is raised only AFTER the statement has been
executed and its rows fetched; the connection is then closed and the error
re-raised to the caller. -/
theorem execute_and_fetch_ambiguous_after_send
    (db : String → Except PyError (List (List String) × List String))
    (query : String) (b : Bool) (s : ConnSt)
    (rows : List (List String)) (cols : List String)
    (hopen : s.connOpen = true) (hdb : db query = .ok (rows, cols)) :
    execute_and_fetch db query b b s
      = (⟨false, s.executed ++ [query]⟩,
         .error (.exception "return_dataframe and return_json are mutually exclusive.")) := by
  unfold execute_and_fetch
  rw [hopen, hdb]
  simp

theorem execute_and_fetch_ambiguous_after_send_witness :
    execute_and_fetch (fun _ => .ok ([["1"]], ["count"])) "select count(*) from t"
        true true ⟨true, ["earlier"]⟩
      = (⟨false, ["earlier", "select count(*) from t"]⟩,
         .error (.exception "return_dataframe and return_json are mutually exclusive.")) :=
  execute_and_fetch_ambiguous_after_send (fun _ => .ok ([["1"]], ["count"]))
    "select count(*) from t" true ⟨true, ["earlier"]⟩ [["1"]] ["count"] rfl rfl

/-- C6: close-on-any-error policy.  If executing a statement through
`execute` or `execute_and_fetch` raises, the connection is closed before the
same error is re-raised to the caller; and on a closed connection either
method fails (from the cursor call) without sending any statement, so no
further statement can be executed without a fresh connect. -/
theorem close_on_error_policy
    (dbe : String → Except PyError Unit)
    (dbf : String → Except PyError (List (List String) × List String))
    (query : String) (rd rj : Bool) (s : ConnSt) (e : PyError)
    (hopen : s.connOpen = true) :
    (dbe query = .error e →
        execute dbe query s = (⟨false, s.executed ++ [query]⟩, .error e)) ∧
    (dbf query = .error e →
        execute_and_fetch dbf query rd rj s
          = (⟨false, s.executed ++ [query]⟩, .error e)) ∧
    (∀ s' : ConnSt, s'.connOpen = false →
        execute dbe query s' = (s', .error .interfaceError) ∧
        execute_and_fetch dbf query rd rj s' = (s', .error .interfaceError)) := by
  refine ⟨?_, ?_, ?_⟩
  · intro hdb
    unfold execute
    rw [hopen, hdb]
    simp
  · intro hdb
    unfold execute_and_fetch
    rw [hopen, hdb]
    simp
  · intro s' hclosed
    constructor
    · unfold execute
      rw [hclosed]
      simp
    · unfold execute_and_fetch
      rw [hclosed]
      simp

theorem close_on_error_policy_witness :
    execute (fun _ => .error .executionError) "drop table t" ⟨true, []⟩
      = (⟨false, ["drop table t"]⟩, .error .executionError) ∧
    execute (fun _ => .error .executionError) "drop table t" ⟨false, ["drop table t"]⟩
      = (⟨false, ["drop table t"]⟩, .error .interfaceError) := by
  have h := close_on_error_policy (fun _ => .error .executionError)
    (fun _ => .ok ([], [])) "drop table t" true false ⟨true, []⟩ .executionError rfl
  exact ⟨h.1 rfl, (h.2.2 ⟨false, ["drop table t"]⟩ rfl).1⟩

/-- C8: when every source dtype of the ColumnSchema is mapped by the TypeMap
(`ts` being the mapped warehouse types, in order), the create-table DDL is
exactly the base template around the column-definition list rendered from the
columns in their original order, each as a double-quoted name followed by its
mapped type. -/
theorem create_table_ddl_column_order
    (schema_and_table : String) (df : DataFrame) (add_updated_column : Bool)
    (diststyle sortkey : Option String) (tm : TypeMap) (ts : List String)
    (h : df.cols.map (fun c => List.lookup c.2 tm) = ts.map some) :
    create_table_ddl_from_df schema_and_table df add_updated_column diststyle sortkey tm
      = .ok (ddl_base_subst add_updated_column schema_and_table
          (pyJoin ", " (List.zipWith (fun (c : String × String) (t : String) =>
            "\"" ++ c.1 ++ "\" " ++ t) df.cols ts))
          (get_table_config_string diststyle sortkey)) := by
  have hddl := get_ddl_string_all_mapped df.cols tm ts h
  unfold create_table_ddl_from_df get_pandas_datatype_frame
  dsimp only
  rw [hddl]
  rfl

theorem create_table_ddl_column_order_witness :
    create_table_ddl_from_df "public.users"
        ⟨[("id", "int64"), ("name", "object")], []⟩ false (some "auto") none
        [("int64", "BIGINT"), ("object", "VARCHAR(500)")]
      = .ok (ddl_base_subst false "public.users"
          (pyJoin ", " (List.zipWith (fun (c : String × String) (t : String) =>
            "\"" ++ c.1 ++ "\" " ++ t)
            [("id", "int64"), ("name", "object")] ["BIGINT", "VARCHAR(500)"]))
          (get_table_config_string (some "auto") none)) :=
  create_table_ddl_column_order "public.users"
    ⟨[("id", "int64"), ("name", "object")], []⟩ false (some "auto") none
    [("int64", "BIGINT"), ("object", "VARCHAR(500)")] ["BIGINT", "VARCHAR(500)"]
    (by decide)

/-- C10: sort-key clause edge case.  Only `sortkey = None` suppresses the
sort-key clause of the table-config string — any non-`None` value, including
the empty string, renders one — and since `df_to_redshift` defaults `sortkey`
to `''`, any create-table DDL generated with that default ends in the literal
text `sortkey()`. -/
theorem sortkey_default_renders_empty_clause :
    (∀ d k, get_table_config_string (some d) (some k)
        = ("diststyle " ++ d ++ " ") ++ ("sortkey(" ++ k ++ ")")) ∧
    (∀ k, get_table_config_string none (some k) = "sortkey(" ++ k ++ ")") ∧
    (∀ d, get_table_config_string (some d) none = "diststyle " ++ d ++ " ") ∧
    get_table_config_string none none = "" ∧
    (∀ (name : String) (df : DataFrame) (addUpd : Bool) (d : Option String)
        (tm : TypeMap) (s : String),
      create_table_ddl_from_df name df addUpd d dfToRedshiftDefaultSortkey tm = .ok s →
      ∃ p, s = p ++ "sortkey()") := by
  refine ⟨?_, ?_, ?_, ?_, ?_⟩
  · intro d k
    simp [get_table_config_string]
  · intro k
    simp [get_table_config_string]
  · intro d
    simp [get_table_config_string]
  · rfl
  · intro name df addUpd d tm s hok
    unfold create_table_ddl_from_df at hok
    dsimp only at hok
    cases hddl : get_ddl_string (add_column_ddl
        (add_redshift_type_column (get_pandas_datatype_frame df) tm)) with
    | error e => rw [hddl] at hok; exact absurd hok (by simp [Bind.bind, Except.bind])
    | ok ddl =>
        rw [hddl] at hok
        simp only [Bind.bind, Except.bind, pure, Except.pure, Except.ok.injEq] at hok
        rw [← hok]
        have hend : ∀ x : String,
            ∃ p, x ++ get_table_config_string d dfToRedshiftDefaultSortkey
              = p ++ "sortkey()" := by
          intro x
          cases d with
          | none =>
              refine ⟨x, ?_⟩
              exact congrArg (x ++ ·) (by decide)
          | some dv =>
              refine ⟨x ++ ("diststyle " ++ dv ++ " "), ?_⟩
              show x ++ (("diststyle " ++ dv ++ " ") ++ ("sortkey(" ++ "" ++ ")")) = _
              rw [← strAppend_assoc]
              exact congrArg ((x ++ ("diststyle " ++ dv ++ " ")) ++ ·) (by decide)
        cases addUpd with
        | false => exact hend ("CREATE TABLE IF NOT EXISTS " ++ name ++ " (" ++ ddl ++ ") ")
        | true => exact hend ("CREATE TABLE IF NOT EXISTS " ++ name ++ " (" ++ ddl
            ++ ", \"__updated_at\" TIMESTAMP DEFAULT SYSDATE) ")

theorem sortkey_default_renders_empty_clause_witness :
    get_table_config_string (some "auto") (some "") = ("diststyle " ++ "auto" ++ " ") ++ ("sortkey(" ++ "" ++ ")") ∧
    ∃ p, ddl_base_subst false "public.t" "\"id\" BIGINT"
        (get_table_config_string (some "auto") dfToRedshiftDefaultSortkey)
      = p ++ "sortkey()" := by
  constructor
  · exact sortkey_default_renders_empty_clause.1 "auto" ""
  · exact sortkey_default_renders_empty_clause.2.2.2.2 "public.t"
      ⟨[("id", "int64")], []⟩ false (some "auto") [("int64", "BIGINT")]
      (ddl_base_subst false "public.t" "\"id\" BIGINT"
        (get_table_config_string (some "auto") dfToRedshiftDefaultSortkey))
      (by rfl)

/-- C4 (counterexample): a ColumnSchema containing the unmapped dtype
`weirdtype` on column `mystery` makes DDL generation fail — but with the
generic join `TypeError` whose message (`sequence item 1: expected str
instance, float found`) names neither the offending column nor its type;
no `UnmappedTypeError` exists anywhere in the code. -/
theorem unmapped_type_generic_error :
    create_table_ddl_from_df "public.t"
        ⟨[("id", "int64"), ("mystery", "weirdtype")], []⟩ false (some "auto") none
        [("int64", "BIGINT")]
      = .error (.typeError "sequence item 1: expected str instance, float found") ∧
    chSub "mystery".data
      "sequence item 1: expected str instance, float found".data = false ∧
    chSub "weirdtype".data
      "sequence item 1: expected str instance, float found".data = false := by
  refine ⟨by decide, by decide, by decide⟩

/-- C4 (amended): for every ColumnSchema containing at least one dtype absent
from the TypeMap, DDL generation fails — with a generic `TypeError` raised by
the string-join over a null entry, not with an `UnmappedTypeError` naming the
column — and the failure happens inside `create_table_from_df` before either
the create-schema or create-table statement is sent to the warehouse: the
pipeline state (statement counter included) is returned unchanged. -/
theorem unmapped_type_fails_before_warehouse
    (schema_and_table : String) (df : DataFrame) (diststyle sortkey : Option String)
    (add_updated_column : Bool) (st : PyState)
    (h : ∃ c ∈ df.cols, List.lookup c.2 st.typeMap = none) :
    ∃ msg, create_table_ddl_from_df schema_and_table df add_updated_column
        diststyle sortkey st.typeMap = .error (.typeError msg) ∧
      create_table_from_df schema_and_table df diststyle sortkey add_updated_column st
        = (st, .error (.typeError msg)) := by
  obtain ⟨i, hi⟩ := firstNoneIdx_of_unmapped df.cols st.typeMap h
  have hgen : create_table_ddl_from_df schema_and_table df add_updated_column
      diststyle sortkey st.typeMap
      = .error (.typeError ("sequence item " ++ toString i
          ++ ": expected str instance, float found")) := by
    unfold create_table_ddl_from_df get_pandas_datatype_frame
    dsimp only
    unfold get_ddl_string
    rw [hi]
    rfl
  refine ⟨_, hgen, ?_⟩
  unfold create_table_from_df
  rw [hgen]

theorem unmapped_type_fails_before_warehouse_witness :
    ∃ msg, create_table_ddl_from_df "analytics.events"
        ⟨[("payload", "complex128")], []⟩ false (some "auto") none
        [("int64", "BIGINT")] = .error (.typeError msg) ∧
      create_table_from_df "analytics.events" ⟨[("payload", "complex128")], []⟩
          (some "auto") none false
          ⟨[], [], [("int64", "BIGINT")], true, 0, [], "u"⟩
        = (⟨[], [], [("int64", "BIGINT")], true, 0, [], "u"⟩, .error (.typeError msg)) :=
  unmapped_type_fails_before_warehouse "analytics.events"
    ⟨[("payload", "complex128")], []⟩ (some "auto") none false
    ⟨[], [], [("int64", "BIGINT")], true, 0, [], "u"⟩
    ⟨("payload", "complex128"), by decide, by decide⟩

/-- C2: for every DataFrame, every encoding and every s3 argument list, the
staging write `df_to_s3` fails with `NameError('encosding')` raised while
evaluating the arguments of the serialization call itself, before any bytes
reach the object store (the state is returned untouched); consequently a
DataFrame-sourced load through `df_to_redshift` that passes its validation
never creates a staged object and never reaches the warehouse. -/
theorem df_to_s3_always_name_errors :
    (∀ (df : DataFrame) (obj : String) (bucket subdir : Option String) (gz : Bool)
        (enc : String) (s : PyState),
      df_to_s3 df obj bucket subdir gz enc s = (s, .error (.nameError "encosding"))) ∧
    (∀ (df : DataFrame) (schema_and_table : String) (sortkey : Option String)
        (columns : Option (List String)) (load_type : String)
        (diststyle : Option String) (primary_keys : List String)
        (bucket : Option String) (subdirectory encoding : String) (keep : Bool)
        (s : PyState),
      (load_type == "incremental" && primary_keys.isEmpty) = false →
      df_to_redshift df schema_and_table sortkey columns load_type diststyle
          primary_keys bucket subdirectory encoding keep s
        = (s, .error (.nameError "encosding"))) := by
  constructor
  · intro df obj bucket subdir gz enc s
    rfl
  · intro df schema_and_table sortkey columns load_type diststyle primary_keys
      bucket subdirectory encoding keep s hcond
    simp [df_to_redshift, hcond, mBind, mGet, df_to_s3]

theorem df_to_s3_always_name_errors_witness :
    df_to_redshift ⟨[("id", "int64")], [[("id", "7")]]⟩ "public.t" (some "") none
        "incremental" (some "auto") ["id"] none "automated_loads" "utf-8" false
        ⟨[], [("public.t", [])], [("int64", "BIGINT")], true, 0, [], "u"⟩
      = (⟨[], [("public.t", [])], [("int64", "BIGINT")], true, 0, [], "u"⟩,
         .error (.nameError "encosding")) :=
  df_to_s3_always_name_errors.2 ⟨[("id", "int64")], [[("id", "7")]]⟩ "public.t"
    (some "") none "incremental" (some "auto") ["id"] none "automated_loads"
    "utf-8" false ⟨[], [("public.t", [])], [("int64", "BIGINT")], true, 0, [], "u"⟩
    (by decide)

/-! ### Lemmas for the delete-statement round trip (claim C9) -/

theorem quoteScan_skip (l r : List Char) (h : '"' ∉ l) :
    quoteScan (l ++ r) none = quoteScan r none := by
  induction l with
  | nil => rfl
  | cons c t ih =>
      have hc : ¬ c = '"' := fun he => h (he ▸ List.mem_cons_self c t)
      show quoteScan (c :: (t ++ r)) none = _
      simp only [quoteScan, if_neg hc]
      exact ih (fun hm => h (List.mem_cons_of_mem c hm))

theorem quoteScan_emit (k r acc : List Char) (h : '"' ∉ k) :
    quoteScan (k ++ '"' :: r) (some acc) = String.mk (acc ++ k) :: quoteScan r none := by
  induction k generalizing acc with
  | nil =>
      show quoteScan ('"' :: r) (some acc) = _
      simp [quoteScan]
  | cons c t ih =>
      have hc : ¬ c = '"' := fun he => h (he ▸ List.mem_cons_self c t)
      show quoteScan (c :: (t ++ '"' :: r)) (some acc) = _
      simp only [quoteScan, if_neg hc]
      rw [ih (acc ++ [c]) (fun hm => h (List.mem_cons_of_mem c hm))]
      simp

/-- Scanning a no-quote prefix, then a quoted segment, consumes both and
emits the segment. -/
theorem quoteScan_wrap (pre k r : List Char) (hpre : '"' ∉ pre) (hk : '"' ∉ k) :
    quoteScan (pre ++ '"' :: (k ++ '"' :: r)) none
      = String.mk k :: quoteScan r none := by
  rw [quoteScan_skip pre _ hpre]
  show quoteScan ('"' :: (k ++ '"' :: r)) none = _
  simp only [quoteScan, if_pos rfl]
  rw [quoteScan_emit k r [] hk]
  simp

/-- One `keyClause` contributes exactly its key, twice, to the quoted
segments. -/
theorem quoteScan_keyClause (source dest key : String) (r : List Char)
    (hs : '"' ∉ source.data) (hd : '"' ∉ dest.data) (hk : '"' ∉ key.data) :
    quoteScan ((keyClause source dest key).data ++ r) none
      = key :: key :: quoteScan r none := by
  have hpre1 : '"' ∉ ("and ".data ++ source.data ++ ['.']) := by
    simp [List.mem_append, hs]
  have hmid : '"' ∉ ([' ', '=', ' '] ++ dest.data ++ ['.']) := by
    simp [List.mem_append, hd]
  have h1 : (keyClause source dest key).data ++ r
      = ("and ".data ++ source.data ++ ['.']) ++ '"' :: (key.data ++ '"' ::
          (([' ', '=', ' '] ++ dest.data ++ ['.']) ++ '"' ::
            (key.data ++ '"' :: (' ' :: r)))) := by
    simp [keyClause, String.data_append, List.append_assoc]
  rw [h1, quoteScan_wrap _ _ _ hpre1 hk, quoteScan_wrap _ _ _ hmid hk]
  have hsp : quoteScan (' ' :: r) none = quoteScan r none := by
    simp [quoteScan]
  rw [hsp]

/-- The `+=` accumulation of the where-clause loop, as a concatenation. -/
theorem foldl_append_concat {α : Type} (f : α → String) (l : List α) (init : String) :
    l.foldl (fun acc x => acc ++ f x) init = init ++ strConcat (l.map f) := by
  induction l generalizing init with
  | nil => simp [strConcat, strAppend_empty]
  | cons a t ih =>
      show t.foldl _ (init ++ f a) = _
      rw [ih (init ++ f a)]
      simp [strConcat, strAppend_assoc]

theorem whereClauseLoop_concat (source dest : String) (primary_keys : List String) :
    whereClauseLoop source dest primary_keys
      = "where 1=1 " ++ strConcat (primary_keys.map (keyClause source dest)) :=
  foldl_append_concat (keyClause source dest) primary_keys "where 1=1 "

theorem strEmpty_append (a : String) : "" ++ a = a := by
  apply strExt
  simp [String.data_append]

theorem strConcat_append (l1 l2 : List String) :
    strConcat (l1 ++ l2) = strConcat l1 ++ strConcat l2 := by
  induction l1 with
  | nil => simp [strConcat, strEmpty_append]
  | cons a t ih =>
      show a ++ strConcat (t ++ l2) = (a ++ strConcat t) ++ strConcat l2
      rw [ih, strAppend_assoc]

theorem quoteScan_strConcat (source dest : String) (keys : List String)
    (hs : '"' ∉ source.data) (hd : '"' ∉ dest.data)
    (hk : ∀ k ∈ keys, '"' ∉ k.data) :
    quoteScan (strConcat (keys.map (keyClause source dest))).data none
      = dupEach keys := by
  induction keys with
  | nil => rfl
  | cons k t ih =>
      have hdata : (strConcat ((k :: t).map (keyClause source dest))).data
          = (keyClause source dest k).data
            ++ (strConcat (t.map (keyClause source dest))).data := by
        show (keyClause source dest k ++ strConcat (t.map (keyClause source dest))).data = _
        exact String.data_append ..
      rw [hdata,
        quoteScan_keyClause source dest k _ hs hd (hk k (List.mem_cons_self k t))]
      rw [ih (fun x hx => hk x (List.mem_cons_of_mem k hx))]
      rfl

theorem everyOther_dupEach {α : Type} (l : List α) : everyOther (dupEach l) = l := by
  induction l with
  | nil => rfl
  | cons a t ih =>
      show a :: everyOther (dupEach t) = a :: t
      rw [ih]

/-- Quoted-segment inventory of the whole rendered delete statement. -/
theorem quoteScan_delete_query (source dest : String) (keys : List String)
    (hs : '"' ∉ source.data) (hd : '"' ∉ dest.data)
    (hk : ∀ k ∈ keys, '"' ∉ k.data) :
    quoteScan (get_delete_from_dest_using_source_query source dest keys).data none
      = dupEach keys := by
  have hq : (get_delete_from_dest_using_source_query source dest keys).data
      = ("delete from " ++ dest ++ " using " ++ source ++ "\n        "
          ++ "where 1=1 ").data
        ++ (strConcat (keys.map (keyClause source dest))).data := by
    simp [get_delete_from_dest_using_source_query, whereClauseLoop_concat,
      String.data_append, List.append_assoc]
  have hpre : '"' ∉ ("delete from " ++ dest ++ " using " ++ source ++ "\n        "
      ++ "where 1=1 ").data := by
    simp [String.data_append, List.mem_append, hs, hd]
  rw [hq, quoteScan_skip _ _ hpre]
  exact quoteScan_strConcat source dest keys hs hd hk

theorem strConcat_mem_split {α : Type} (f : α → String) (l : List α) (a : α)
    (h : a ∈ l) : ∃ p q, strConcat (l.map f) = p ++ f a ++ q := by
  obtain ⟨s, t, rfl⟩ := List.append_of_mem h
  refine ⟨strConcat (s.map f), strConcat (t.map f), ?_⟩
  rw [List.map_append, strConcat_append, List.map_cons]
  show strConcat (s.map f) ++ (f a ++ strConcat (t.map f)) = _
  rw [strAppend_assoc]

/-- C9: round trip of the delete-half statement builder.  For identifiers
free of the double-quote character and a non-empty key list, the rendered
statement starts with the delete-from-dest-using-source header, textually
contains one equality condition (`keyClause`) per key relating the key column
of both tables, and parsing the key list back out of the statement
(`parseDeleteKeys`) recovers the original key list in order. -/
theorem delete_query_round_trip (source dest : String) (primary_keys : List String)
    (hs : '"' ∉ source.data) (hd : '"' ∉ dest.data)
    (hk : ∀ k ∈ primary_keys, '"' ∉ k.data) (hne : primary_keys ≠ []) :
    parseDeleteKeys (get_delete_from_dest_using_source_query source dest primary_keys)
        = primary_keys ∧
    (∃ tail, get_delete_from_dest_using_source_query source dest primary_keys
        = "delete from " ++ dest ++ " using " ++ source ++ tail) ∧
    (∀ k ∈ primary_keys, ∃ p q,
        get_delete_from_dest_using_source_query source dest primary_keys
          = p ++ keyClause source dest k ++ q) := by
  refine ⟨?_, ?_, ?_⟩
  · unfold parseDeleteKeys
    rw [quoteScan_delete_query source dest primary_keys hs hd hk]
    exact everyOther_dupEach primary_keys
  · refine ⟨"\n        " ++ whereClauseLoop source dest primary_keys, ?_⟩
    unfold get_delete_from_dest_using_source_query
    rw [strAppend_assoc ("delete from " ++ dest ++ " using " ++ source) "\n        "
      (whereClauseLoop source dest primary_keys)]
  · intro k hkmem
    obtain ⟨p', q', hc⟩ := strConcat_mem_split (keyClause source dest) primary_keys k hkmem
    refine ⟨"delete from " ++ dest ++ " using " ++ source ++ "\n        "
      ++ "where 1=1 " ++ p', q', ?_⟩
    rw [get_delete_from_dest_using_source_query, whereClauseLoop_concat, hc]
    simp only [strAppend_assoc]

theorem delete_query_round_trip_witness :
    parseDeleteKeys (get_delete_from_dest_using_source_query "orders__tmp"
        "public.orders" ["id", "region"]) = ["id", "region"] ∧
    (∃ tail, get_delete_from_dest_using_source_query "orders__tmp" "public.orders"
        ["id", "region"]
      = "delete from " ++ "public.orders" ++ " using " ++ "orders__tmp" ++ tail) ∧
    (∃ p q, get_delete_from_dest_using_source_query "orders__tmp" "public.orders"
        ["id", "region"]
      = p ++ keyClause "orders__tmp" "public.orders" "id" ++ q) ∧
    (∃ p q, get_delete_from_dest_using_source_query "orders__tmp" "public.orders"
        ["id", "region"]
      = p ++ keyClause "orders__tmp" "public.orders" "region" ++ q) := by
  have h := delete_query_round_trip "orders__tmp" "public.orders" ["id", "region"]
    (by decide) (by decide) (by decide) (by decide)
  exact ⟨h.1, h.2.1, h.2.2 "id" (by decide), h.2.2 "region" (by decide)⟩

/-! ### Store preservation: `s3_to_redshift` never touches the object store
(it only reads it), so whatever it does, the staged object survives it.
Needed for claim C3. -/

theorem store_runStmt (op : Tables → Except PyError Tables) (s : PyState) :
    ((runStmt op s).1).store = s.store := by
  unfold runStmt
  split
  · rfl
  · dsimp only
    split
    · rfl
    · split <;> rfl

theorem store_runFetch {α : Type} (val : PyState → α) (s : PyState) :
    ((runFetch val s).1).store = s.store := by
  unfold runFetch
  split
  · rfl
  · dsimp only
    split <;> rfl

theorem store_mOk {α : Type} (a : α) (s : PyState) : ((mOk a s).1).store = s.store := rfl

theorem store_mBind {α β : Type} (m : M α) (f : α → M β)
    (hm : ∀ s, ((m s).1).store = s.store)
    (hf : ∀ a s, ((f a s).1).store = s.store) (s : PyState) :
    ((mBind m f s).1).store = s.store := by
  unfold mBind
  cases hres : m s with
  | mk s' r =>
      cases r with
      | ok a =>
          have h1 := hm s
          rw [hres] at h1
          dsimp only
          rw [hf a s']
          exact h1
      | error e =>
          have h1 := hm s
          rw [hres] at h1
          exact h1

theorem store_ite {α : Type} (c : Prop) [Decidable c] (m1 m2 : M α)
    (h1 : ∀ s, ((m1 s).1).store = s.store) (h2 : ∀ s, ((m2 s).1).store = s.store)
    (s : PyState) : (((if c then m1 else m2) s).1).store = s.store := by
  by_cases hc : c
  · simp only [if_pos hc]; exact h1 s
  · simp only [if_neg hc]; exact h2 s

theorem store_s3_to_df (key : String) (bucket : Option String) (s : PyState) :
    ((s3_to_df key bucket s).1).store = s.store := by
  unfold s3_to_df
  split <;> rfl

theorem store_create_table_from_df (schema_and_table : String) (df : DataFrame)
    (diststyle sortkey : Option String) (add_updated_column : Bool) (s : PyState) :
    ((create_table_from_df schema_and_table df diststyle sortkey
        add_updated_column s).1).store = s.store := by
  unfold create_table_from_df
  split
  · rfl
  · exact store_mBind _ _ (store_runStmt _) (fun _ => store_runStmt _) s

theorem store_create_temp_staging_table (schema_and_table : String) (s : PyState) :
    ((create_temp_staging_table schema_and_table s).1).store = s.store := by
  unfold create_temp_staging_table
  exact store_mBind _ _ (store_runStmt _)
    (fun _ => store_mBind _ _ (store_runStmt _) (fun _ => store_mOk _)) s

theorem store_copy_from_s3 (schema_and_table key : String) (s : PyState) :
    ((copy_from_s3 schema_and_table key s).1).store = s.store := by
  unfold copy_from_s3
  apply store_mBind _ _ (fun s' => rfl)
  intro a s'
  cases hl : List.lookup key a.store <;> simp only [hl] <;> exact store_runStmt _ s'

theorem store_upsert (source dest : String) (primary_keys : List String) (s : PyState) :
    ((upsert source dest primary_keys s).1).store = s.store := by
  unfold upsert
  exact store_mBind _ _
    (store_ite _ _ _ (fun s' => store_mOk _ s') (fun s' => store_runStmt _ s'))
    (fun _ => store_runStmt _) s

theorem store_upsert_from_s3 (schema_and_table key : String) (bucket : Option String)
    (primary_keys : List String) (s : PyState) :
    ((upsert_from_s3 schema_and_table key bucket primary_keys s).1).store = s.store := by
  unfold upsert_from_s3
  exact store_mBind _ _ (store_create_temp_staging_table _)
    (fun temp => store_mBind _ _ (store_copy_from_s3 _ _)
      (fun _ => store_mBind _ _ (store_upsert _ _ _)
        (fun _ => store_runStmt _))) s

theorem store_s3_to_redshift (key schema_and_table : String) (sortkey : Option String)
    (columns : Option (List String)) (load_type : String)
    (primary_keys : List String) (bucket : Option String)
    (diststyle : Option String) (encoding : String) (s : PyState) :
    ((s3_to_redshift key schema_and_table sortkey columns load_type primary_keys
        bucket diststyle encoding s).1).store = s.store := by
  unfold s3_to_redshift
  exact store_mBind _ _
    (store_ite _ _ _ (fun s' => store_runStmt _ s') (fun s' => store_mOk _ s'))
    (fun _ => store_mBind _ _ (store_s3_to_df _ _)
      (fun df => store_mBind _ _ (store_runFetch _)
        (fun te => store_mBind _ _
          (store_ite _ _ _ (fun s' => store_mOk _ s')
            (fun s' => store_create_table_from_df _ _ _ _ _ s'))
          (fun _ => store_upsert_from_s3 _ _ _ _)))) s

/-- C3 (counterexample): a failed `loadFromStagedObject` call chained with
`keepStagedObject = False` — here the warehouse rejects the first statement of
`s3_to_redshift` — leaves the staged object in the store: the claimed
guaranteed deletion does not happen on the error path, because the delete is
straight-line code after the call, not a scoped-release/`finally` block. -/
theorem staged_object_survives_failed_load :
    (df_to_redshift_from "automated_loads/t-u.csv" "public.t" (some "") none ["id"]
        "utf-8" false
        ⟨[("automated_loads/t-u.csv", ⟨[("id", "int64")], [[("id", "1")]]⟩)],
         [("public.t", [])], [("int64", "BIGINT")], true, 0, [0], "u"⟩).2
      = .error .executionError ∧
    List.lookup "automated_loads/t-u.csv"
      ((df_to_redshift_from "automated_loads/t-u.csv" "public.t" (some "") none ["id"]
        "utf-8" false
        ⟨[("automated_loads/t-u.csv", ⟨[("id", "int64")], [[("id", "1")]]⟩)],
         [("public.t", [])], [("int64", "BIGINT")], true, 0, [0], "u"⟩).1).store
      = some ⟨[("id", "int64")], [[("id", "1")]]⟩ := by
  refine ⟨by decide, by decide⟩

/-- C3 (amended): when `keep_s3_backup = False`, the staged object is deleted
only when `s3_to_redshift` (invoked as `df_to_redshift` invokes it) returns
normally; when it raises, the error propagates with the store untouched, so
the staged object survives every failed chained load.  (Moreover, in the code
as it stands the chained path is unreachable from `df_to_redshift`, whose
staging step always raises `NameError('encosding')` — see C2.) -/
theorem staged_object_cleanup_on_success_only
    (key schema_and_table : String) (sortkey : Option String)
    (columns : Option (List String)) (primary_keys : List String)
    (encoding : String) (st st' : PyState) :
    (∀ e : PyError,
      s3_to_redshift key schema_and_table sortkey columns s3ToRedshiftDefaultLoadType
          primary_keys none s3ToRedshiftDefaultDiststyle encoding st = (st', .error e) →
      df_to_redshift_from key schema_and_table sortkey columns primary_keys
          encoding false st = (st', .error e) ∧ st'.store = st.store) ∧
    (s3_to_redshift key schema_and_table sortkey columns s3ToRedshiftDefaultLoadType
          primary_keys none s3ToRedshiftDefaultDiststyle encoding st = (st', .ok ()) →
      df_to_redshift_from key schema_and_table sortkey columns primary_keys
          encoding false st
        = ({ st' with store := st'.store.filter (fun p => p.1 != key) }, .ok ())) := by
  constructor
  · intro e h
    constructor
    · unfold df_to_redshift_from mBind
      rw [h]
    · have hst := store_s3_to_redshift key schema_and_table sortkey columns
        s3ToRedshiftDefaultLoadType primary_keys none s3ToRedshiftDefaultDiststyle
        encoding st
      rw [h] at hst
      exact hst
  · intro h
    unfold df_to_redshift_from mBind
    rw [h]
    rfl

theorem staged_object_cleanup_on_success_only_witness :
    df_to_redshift_from "automated_loads/t-u.csv" "public.t" (some "") none ["id"]
        "utf-8" false
        ⟨[("automated_loads/t-u.csv", ⟨[("id", "int64")], [[("id", "1")]]⟩)],
         [("public.t", [])], [("int64", "BIGINT")], true, 0, [0], "v"⟩
      = (⟨[("automated_loads/t-u.csv", ⟨[("id", "int64")], [[("id", "1")]]⟩)],
          [("public.t", [])], [("int64", "BIGINT")], false, 1, [0], "v"⟩,
         .error .executionError) ∧
    (⟨[("automated_loads/t-u.csv", ⟨[("id", "int64")], [[("id", "1")]]⟩)],
      [("public.t", [])], [("int64", "BIGINT")], false, 1, [0], "v"⟩ : PyState).store
      = (⟨[("automated_loads/t-u.csv", ⟨[("id", "int64")], [[("id", "1")]]⟩)],
          [("public.t", [])], [("int64", "BIGINT")], true, 0, [0], "v"⟩ : PyState).store :=
  (staged_object_cleanup_on_success_only "automated_loads/t-u.csv" "public.t"
      (some "") none ["id"] "utf-8"
      ⟨[("automated_loads/t-u.csv", ⟨[("id", "int64")], [[("id", "1")]]⟩)],
       [("public.t", [])], [("int64", "BIGINT")], true, 0, [0], "v"⟩
      ⟨[("automated_loads/t-u.csv", ⟨[("id", "int64")], [[("id", "1")]]⟩)],
       [("public.t", [])], [("int64", "BIGINT")], false, 1, [0], "v"⟩).1
    .executionError (by decide)

/-- C1 (code bug): incremental upsert semantics of the public load.  With
destination rows `{(1,a),(2,b)}`, input `{(2,c),(3,d)}` and primary key `id`:
(a) `df_to_redshift` with `load_type='incremental'` aborts with
`NameError('encosding')` in the staging step, leaving the destination
unchanged at `{(1,a),(2,b)}`; and (b) even from a staged object already in
place, the tail of `df_to_redshift` omits `load_type` when calling
`s3_to_redshift`, which therefore defaults to `'full-refresh'`, drops the
destination first, and ends with `{(2,c),(3,d)}` — in both cases NOT the
claimed `{(1,a),(2,c),(3,d)}`. -/
theorem incremental_load_divergence :
    df_to_redshift
        ⟨[("id", "int64"), ("val", "object")],
         [[("id", "2"), ("val", "c")], [("id", "3"), ("val", "d")]]⟩
        "public.t" (some "") none "incremental" (some "auto") ["id"] none
        "automated_loads" "utf-8" false
        ⟨[], [("public.t", [[("id", "1"), ("val", "a")], [("id", "2"), ("val", "b")]])],
         [("int64", "BIGINT"), ("object", "VARCHAR(500)")], true, 0, [], "u0"⟩
      = (⟨[], [("public.t", [[("id", "1"), ("val", "a")], [("id", "2"), ("val", "b")]])],
          [("int64", "BIGINT"), ("object", "VARCHAR(500)")], true, 0, [], "u0"⟩,
         .error (.nameError "encosding")) ∧
    List.lookup "public.t"
      ((df_to_redshift_from "automated_loads/t-u0.csv" "public.t" (some "") none
          ["id"] "utf-8" false
          ⟨[("automated_loads/t-u0.csv",
             ⟨[("id", "int64"), ("val", "object")],
              [[("id", "2"), ("val", "c")], [("id", "3"), ("val", "d")]]⟩)],
           [("public.t", [[("id", "1"), ("val", "a")], [("id", "2"), ("val", "b")]])],
           [("int64", "BIGINT"), ("object", "VARCHAR(500)")], true, 0, [], "u0"⟩).1).tables
      = some [[("id", "2"), ("val", "c")], [("id", "3"), ("val", "d")]] ∧
    (df_to_redshift_from "automated_loads/t-u0.csv" "public.t" (some "") none
        ["id"] "utf-8" false
        ⟨[("automated_loads/t-u0.csv",
           ⟨[("id", "int64"), ("val", "object")],
            [[("id", "2"), ("val", "c")], [("id", "3"), ("val", "d")]]⟩)],
         [("public.t", [[("id", "1"), ("val", "a")], [("id", "2"), ("val", "b")]])],
         [("int64", "BIGINT"), ("object", "VARCHAR(500)")], true, 0, [], "u0"⟩).2
      = .ok () := by
  refine ⟨by decide, by decide, by decide⟩

end OrchardAws
